import Mathlib

/-!
Shallow embedding of the mock brokerage engine of the ai-hedge-fund
repository (`src/brokers/mock.py` together with the data model of
`src/brokers/models.py`).

Modelling conventions:
* Python floats are exact rationals (`ℚ`), Python ints are `ℤ`.
* Python dicts are association lists with in-place-update semantics
  (`dictInsert` replaces an existing key in place, otherwise appends,
  like `d[k] = v`; `dictErase` is `del d[k]`).
* `uuid4()` broker order ids are drawn from a counter (`next_order_id`)
  kept in the broker state; `datetime.now()` is the state's `now` stamp.
* A Python exception that `submit_order` can propagate
  (`ZeroDivisionError` from a float division by zero) is modelled with
  `Except PyErr`; the `InsufficientFundsError` that the engine raises and
  catches locally is the `ExecErr.insufficientFunds` variant of the
  execution primitives' result type.
* The persisted-state JSON blob of `save_state`/`load_state` is modelled
  as a typed record with `Option` fields (`none` = key absent, so a
  `KeyError` on a required field is a `none` match); a missing file or
  malformed JSON is the `none` case of the whole blob.
-/

namespace Mock

/-- Python `int(x)` applied to a float: truncation toward zero. -/
def pyInt (x : ℚ) : ℤ := if 0 ≤ x then ⌊x⌋ else ⌈x⌉

/-- Python dict assignment `d[k] = v`: replace in place if the key is
present, otherwise append at the end (insertion order is preserved). -/
def dictInsert {α β : Type} [BEq α] (k : α) (v : β) : List (α × β) → List (α × β)
  | [] => [(k, v)]
  | (k', v') :: rest =>
      if k' == k then (k, v) :: rest else (k', v') :: dictInsert k v rest

/-- Python `del d[k]`. -/
def dictErase {α β : Type} [BEq α] (k : α) (l : List (α × β)) : List (α × β) :=
  l.filter (fun kv => !(kv.1 == k))

/-- Boolean predicate holding of the content of an `Option`, vacuously
true for `none`. -/
def optionHolds {α : Type} (p : α → Bool) : Option α → Bool
  | none => true
  | some a => p a

/-- Order side (`OrderSide` in `models.py`). -/
inductive OrderSide
  | buy
  | sell
deriving DecidableEq

/-- Order type (`OrderType` in `models.py`). -/
inductive OrderType
  | market
  | limit
  | stop
  | stopLimit
deriving DecidableEq

/-- Order execution status (`OrderStatus` in `models.py`); the PARTIAL
status is called `partFilled` here. -/
inductive OrderStatus
  | pending
  | submitted
  | partFilled
  | filled
  | cancelled
  | rejected
  | expired
deriving DecidableEq

/-- Position side (`PositionSide` in `models.py`). -/
inductive PositionSide
  | long
  | short
deriving DecidableEq

/-- The canonical string of a `PositionSide` (the enum's `.value`). -/
def PositionSide.toValue : PositionSide → String
  | .long => "long"
  | .short => "short"

/-- `PositionSide(str)`: `none` models the `ValueError` on an unknown value. -/
def PositionSide.ofValue (v : String) : Option PositionSide :=
  if v = "long" then some PositionSide.long
  else if v = "short" then some PositionSide.short
  else none

/-- The canonical string of an `OrderSide` (the enum's `.value`). -/
def OrderSide.toValue : OrderSide → String
  | .buy => "buy"
  | .sell => "sell"

/-- `OrderSide(str)`: `none` models the `ValueError` on an unknown value. -/
def OrderSide.ofValue (v : String) : Option OrderSide :=
  if v = "buy" then some OrderSide.buy
  else if v = "sell" then some OrderSide.sell
  else none

/-- The canonical string of an `OrderStatus` (the enum's `.value`). -/
def OrderStatus.toValue : OrderStatus → String
  | .pending => "pending"
  | .submitted => "submitted"
  | .partFilled => "partial"
  | .filled => "filled"
  | .cancelled => "cancelled"
  | .rejected => "rejected"
  | .expired => "expired"

/-- `OrderStatus(str)`: `none` models the `ValueError` on an unknown value. -/
def OrderStatus.ofValue (v : String) : Option OrderStatus :=
  if v = "pending" then some OrderStatus.pending
  else if v = "submitted" then some OrderStatus.submitted
  else if v = "partial" then some OrderStatus.partFilled
  else if v = "filled" then some OrderStatus.filled
  else if v = "cancelled" then some OrderStatus.cancelled
  else if v = "rejected" then some OrderStatus.rejected
  else if v = "expired" then some OrderStatus.expired
  else none

/-- Terminal statuses (`OrderResult.is_terminal` in `models.py`). -/
def OrderStatus.is_terminal : OrderStatus → Bool
  | .filled => true
  | .cancelled => true
  | .rejected => true
  | .expired => true
  | _ => false

/-- An order to be submitted (`Order` in `models.py`). -/
structure Order where
  ticker : String
  side : OrderSide
  quantity : ℤ
  order_type : OrderType := OrderType.market
  limit_price : Option ℚ := none
  stop_price : Option ℚ := none
  position_side : PositionSide := PositionSide.long
  client_order_id : ℕ := 0
  time_in_force : String := "day"
deriving DecidableEq

/-- The construction-time validation of `Order.__post_init__`. -/
def Order.valid (o : Order) : Prop :=
  (o.order_type = OrderType.limit → o.limit_price ≠ none) ∧
  (o.order_type = OrderType.stop → o.stop_price ≠ none) ∧
  0 < o.quantity

/-- Result of an order submission (`OrderResult` in `models.py`). -/
structure OrderResult where
  order_id : ℕ
  client_order_id : ℕ
  ticker : String
  side : OrderSide
  quantity_requested : ℤ
  quantity_filled : ℤ
  status : OrderStatus
  average_price : Option ℚ := none
  message : Option String := none
  submitted_at : ℕ := 0
  filled_at : Option ℕ := none
deriving DecidableEq

/-- A held position (`Position` in `models.py`). -/
structure Position where
  ticker : String
  quantity : ℤ
  side : PositionSide
  average_cost : ℚ
  current_price : ℚ := 0
  market_value : ℚ := 0
  unrealized_pnl : ℚ := 0
  realized_pnl : ℚ := 0
deriving DecidableEq

/-- `Position.update_market_data` of `models.py`: refresh the
market-derived fields from a current price. -/
def Position.update_market_data (p : Position) (current_price : ℚ) : Position :=
  { p with
    current_price := current_price
    market_value := |(p.quantity : ℚ)| * current_price
    unrealized_pnl :=
      if p.side = PositionSide.long then (current_price - p.average_cost) * (p.quantity : ℚ)
      else (p.average_cost - current_price) * |(p.quantity : ℚ)| }

/-- Account snapshot (`AccountInfo` in `models.py`). -/
structure AccountInfo where
  account_id : String
  cash : ℚ
  buying_power : ℚ
  equity : ℚ
  margin_used : ℚ := 0
  margin_available : ℚ := 0
  day_trade_count : ℕ := 0
  is_paper : Bool := true
deriving DecidableEq

/-- The full state of `MockBroker` in `mock.py`.  `price_provider`
models the optional injected price-lookup collaborator (absence is the
constant-`none` function), `next_order_id` generates the `uuid4` broker
order ids, `now` is the wall clock read by `datetime.now()`. -/
structure MockBroker where
  initial_cash : ℚ
  cash : ℚ
  margin_requirement : ℚ
  margin_used : ℚ
  slippage : ℚ
  max_slippage : ℚ
  price_provider : String → Option ℚ
  positions : List (String × Position)
  orders : List (ℕ × OrderResult)
  prices : List (String × ℚ)
  next_order_id : ℕ
  now : ℕ

/-- `MockBroker.__init__` with an initial cash balance and the three
numeric configuration knobs (the constructor defaults are
1000000, 0.5, 0.0 and 0.005); no price provider, no state. -/
def mkBroker (ic mr sl maxSl : ℚ) : MockBroker :=
  { initial_cash := ic
    cash := ic
    margin_requirement := mr
    margin_used := 0
    slippage := sl
    max_slippage := maxSl
    price_provider := fun _ => none
    positions := []
    orders := []
    prices := []
    next_order_id := 0
    now := 0 }

/-- `MockBroker.set_price`. -/
def set_price (s : MockBroker) (ticker : String) (price : ℚ) : MockBroker :=
  { s with prices := dictInsert ticker price s.prices }

/-- `MockBroker.get_current_price`: the manual cache first, then the
injected provider. -/
def get_current_price (s : MockBroker) (ticker : String) : Option ℚ :=
  match List.lookup ticker s.prices with
  | some p => some p
  | none => s.price_provider ticker

/-- `MockBroker._apply_slippage`. -/
def apply_slippage (s : MockBroker) (price : ℚ) (side : OrderSide) : ℚ :=
  if s.slippage = 0 then price
  else if side = OrderSide.buy then price * (1 + s.slippage)
  else price * (1 - s.slippage)

/-- Failure of an execution primitive: the `InsufficientFundsError` the
engine raises and catches locally, or an uncaught `ZeroDivisionError`. -/
inductive ExecErr
  | insufficientFunds (msg : String)
  | zeroDiv
deriving DecidableEq

/-- A Python exception escaping `submit_order`. -/
inductive PyErr
  | zeroDivisionError
deriving DecidableEq

/-- `MockBroker._get_or_create_position`: looks the ticker up and, when
absent, inserts a fresh zero position with the requested side.  When an
entry exists the requested side is ignored. -/
def get_or_create_position (positions : List (String × Position)) (ticker : String)
    (side : PositionSide) : Position × List (String × Position) :=
  match List.lookup ticker positions with
  | some p => (p, positions)
  | none =>
      let p : Position := { ticker := ticker, quantity := 0, side := side, average_cost := 0 }
      (p, dictInsert ticker p positions)

/-- Tail of `MockBroker._execute_long_buy` after the cash clamp: update
the weighted average cost (only while the new quantity is positive), the
quantity and the cash. -/
def execute_long_buy_fill (s : MockBroker) (ticker : String) (quantity : ℤ) (price : ℚ) :
    Except ExecErr (ℤ × MockBroker) :=
  let pp := get_or_create_position s.positions ticker PositionSide.long
  let position := pp.1
  let old_qty := position.quantity
  let old_cost := position.average_cost
  let new_qty := old_qty + quantity
  let avg :=
    if 0 < new_qty then (old_cost * (old_qty : ℚ) + price * (quantity : ℚ)) / (new_qty : ℚ)
    else old_cost
  let p' := { position with average_cost := avg, quantity := new_qty }
  Except.ok (quantity,
    { s with positions := dictInsert ticker p' pp.2
             cash := s.cash - (quantity : ℚ) * price })

/-- `MockBroker._execute_long_buy`: when the cost exceeds cash the
quantity is clamped to `int(cash / price)` (`0` when the price is not
positive); a zero clamp raises `InsufficientFundsError`. -/
def execute_long_buy (s : MockBroker) (ticker : String) (quantity : ℤ) (price : ℚ) :
    Except ExecErr (ℤ × MockBroker) :=
  let cost := (quantity : ℚ) * price
  if cost > s.cash then
    let maxQty : ℤ := if 0 < price then pyInt (s.cash / price) else 0
    if maxQty = 0 then
      Except.error (ExecErr.insufficientFunds ("Insufficient cash for " ++ ticker))
    else
      execute_long_buy_fill s ticker maxQty price
  else
    execute_long_buy_fill s ticker quantity price

/-- `MockBroker._execute_long_sell`: fills zero on an absent or
non-long position, clamps to the held quantity, realizes P&L, adds the
proceeds to cash and removes the position when its quantity reaches
zero. -/
def execute_long_sell (s : MockBroker) (ticker : String) (quantity : ℤ) (price : ℚ) :
    Except ExecErr (ℤ × MockBroker) :=
  match List.lookup ticker s.positions with
  | none => Except.ok (0, s)
  | some position =>
      if position.side ≠ PositionSide.long then Except.ok (0, s)
      else
        let q := min quantity position.quantity
        if q ≤ 0 then Except.ok (0, s)
        else
          let realized := (price - position.average_cost) * (q : ℚ)
          let p' := { position with
                      realized_pnl := position.realized_pnl + realized
                      quantity := position.quantity - q }
          let positions' :=
            if p'.quantity = 0 then dictErase ticker s.positions
            else dictInsert ticker p' s.positions
          Except.ok (q, { s with cash := s.cash + (q : ℚ) * price, positions := positions' })

/-- Tail of `MockBroker._execute_short_open` after the margin clamp:
weighted average cost over the absolute short size, quantity stored
negated, margin held back, net proceeds added to cash. -/
def execute_short_open_fill (s : MockBroker) (ticker : String) (quantity : ℤ) (price : ℚ) :
    Except ExecErr (ℤ × MockBroker) :=
  let proceeds := price * (quantity : ℚ)
  let margin_required := proceeds * s.margin_requirement
  let pp := get_or_create_position s.positions ticker PositionSide.short
  let position := pp.1
  let old_qty := |position.quantity|
  let old_cost := position.average_cost
  let new_qty := old_qty + quantity
  let avg :=
    if 0 < new_qty then (old_cost * (old_qty : ℚ) + price * (quantity : ℚ)) / (new_qty : ℚ)
    else old_cost
  let p' := { position with average_cost := avg, quantity := -new_qty }
  Except.ok (quantity,
    { s with positions := dictInsert ticker p' pp.2
             margin_used := s.margin_used + margin_required
             cash := s.cash + proceeds - margin_required })

/-- `MockBroker._execute_short_open`: when the required margin exceeds
cash the quantity is clamped to `int(cash / (price * margin_requirement))`
(an unguarded float division: a zero divisor is the `zeroDiv` error,
Python's `ZeroDivisionError`); a zero clamp raises
`InsufficientFundsError`. -/
def execute_short_open (s : MockBroker) (ticker : String) (quantity : ℤ) (price : ℚ) :
    Except ExecErr (ℤ × MockBroker) :=
  let proceeds := price * (quantity : ℚ)
  let margin_required := proceeds * s.margin_requirement
  if margin_required > s.cash then
    if price * s.margin_requirement = 0 then Except.error ExecErr.zeroDiv
    else
      let maxQty := pyInt (s.cash / (price * s.margin_requirement))
      if maxQty = 0 then
        Except.error (ExecErr.insufficientFunds ("Insufficient margin for short " ++ ticker))
      else execute_short_open_fill s ticker maxQty price
  else execute_short_open_fill s ticker quantity price

/-- `MockBroker._execute_short_cover`: fills zero on an absent or
non-short position, clamps to the held short size, realizes P&L,
releases margin with the simplified `cover_cost * margin_requirement`
formula (the source first computes a proportional release and discards
it; its denominators are nonzero here because the filled quantity is
positive) and removes the position when the quantity reaches zero. -/
def execute_short_cover (s : MockBroker) (ticker : String) (quantity : ℤ) (price : ℚ) :
    Except ExecErr (ℤ × MockBroker) :=
  match List.lookup ticker s.positions with
  | none => Except.ok (0, s)
  | some position =>
      if position.side ≠ PositionSide.short then Except.ok (0, s)
      else
        let short_qty := |position.quantity|
        let q := min quantity short_qty
        if q ≤ 0 then Except.ok (0, s)
        else
          let cover_cost := (q : ℚ) * price
          let realized := (position.average_cost - price) * (q : ℚ)
          let margin_to_release := cover_cost * s.margin_requirement
          let p' := { position with
                      realized_pnl := position.realized_pnl + realized
                      quantity := position.quantity + q }
          let positions' :=
            if p'.quantity = 0 then dictErase ticker s.positions
            else dictInsert ticker p' s.positions
          Except.ok (q,
            { s with margin_used := s.margin_used - margin_to_release
                     cash := s.cash + margin_to_release - cover_cost
                     positions := positions' })

/-- `MockBroker._create_rejected_result`: fresh broker order id, zero
filled quantity, REJECTED status and the given message; not stored. -/
def create_rejected_result (s : MockBroker) (order : Order) (message : String) :
    OrderResult × MockBroker :=
  ({ order_id := s.next_order_id
     client_order_id := order.client_order_id
     ticker := order.ticker
     side := order.side
     quantity_requested := order.quantity
     quantity_filled := 0
     status := OrderStatus.rejected
     average_price := none
     message := some message
     submitted_at := s.now
     filled_at := none },
   { s with next_order_id := s.next_order_id + 1 })

/-- `MockBroker._create_pending_result`: fresh broker order id, zero
filled quantity, PENDING status; stored in the order map by the creator
itself. -/
def create_pending_result (s : MockBroker) (order : Order) : OrderResult × MockBroker :=
  let r : OrderResult :=
    { order_id := s.next_order_id
      client_order_id := order.client_order_id
      ticker := order.ticker
      side := order.side
      quantity_requested := order.quantity
      quantity_filled := 0
      status := OrderStatus.pending
      average_price := none
      message := some "Order pending - limit price not reached"
      submitted_at := s.now
      filled_at := none }
  (r, { s with next_order_id := s.next_order_id + 1
               orders := dictInsert r.order_id r s.orders })

/-- `MockBroker._create_partial_result` (a PARTIAL fill). -/
def createPartialResult (s : MockBroker) (order : Order) (quantity : ℤ) (price : ℚ) :
    OrderResult × MockBroker :=
  ({ order_id := s.next_order_id
     client_order_id := order.client_order_id
     ticker := order.ticker
     side := order.side
     quantity_requested := order.quantity
     quantity_filled := quantity
     status := OrderStatus.partFilled
     average_price := some price
     message := some "Partial fill"
     submitted_at := s.now
     filled_at := none },
   { s with next_order_id := s.next_order_id + 1 })

/-- `MockBroker._create_filled_result`. -/
def create_filled_result (s : MockBroker) (order : Order) (quantity : ℤ) (price : ℚ) :
    OrderResult × MockBroker :=
  ({ order_id := s.next_order_id
     client_order_id := order.client_order_id
     ticker := order.ticker
     side := order.side
     quantity_requested := order.quantity
     quantity_filled := quantity
     status := OrderStatus.filled
     average_price := some price
     message := none
     submitted_at := s.now
     filled_at := some s.now },
   { s with next_order_id := s.next_order_id + 1 })

/-- The order-type policy step of `MockBroker.submit_order`: a market
order applies slippage and checks the max-slippage guard (whose realized
slippage fraction divides by the current price: a zero current price is
Python's `ZeroDivisionError`); a limit order is pending while the limit
is not reached and otherwise executes exactly at the limit price; other
order types fall back to market execution with slippage.  `Sum.inl` is
an early result (rejected or pending), `Sum.inr` the execution price. -/
def determine_exec_price (s : MockBroker) (order : Order) (current_price : ℚ) :
    Except PyErr ((OrderResult × MockBroker) ⊕ ℚ) :=
  match order.order_type with
  | OrderType.market =>
      let exec_price := apply_slippage s current_price order.side
      if 0 < s.max_slippage then
        if current_price = 0 then Except.error PyErr.zeroDivisionError
        else
          let actual_slippage := |exec_price - current_price| / current_price
          if actual_slippage > s.max_slippage then
            Except.ok (Sum.inl (create_rejected_result s order "Slippage exceeds max"))
          else Except.ok (Sum.inr exec_price)
      else Except.ok (Sum.inr exec_price)
  | OrderType.limit =>
      match order.limit_price with
      | none => Except.ok (Sum.inl (create_rejected_result s order "Limit price required"))
      | some lp =>
          if order.side = OrderSide.buy ∧ current_price > lp then
            Except.ok (Sum.inl (create_pending_result s order))
          else if order.side = OrderSide.sell ∧ current_price < lp then
            Except.ok (Sum.inl (create_pending_result s order))
          else Except.ok (Sum.inr lp)
  | _ => Except.ok (Sum.inr (apply_slippage s current_price order.side))

/-- Dispatch of `submit_order` to one of the four execution primitives
on (position_side, side). -/
def dispatch_execute (s : MockBroker) (order : Order) (exec_price : ℚ) :
    Except ExecErr (ℤ × MockBroker) :=
  if order.position_side = PositionSide.long then
    if order.side = OrderSide.buy then execute_long_buy s order.ticker order.quantity exec_price
    else execute_long_sell s order.ticker order.quantity exec_price
  else
    if order.side = OrderSide.sell then execute_short_open s order.ticker order.quantity exec_price
    else execute_short_cover s order.ticker order.quantity exec_price

/-- The execution phase of `submit_order` at a resolved execution
price: run the primitive, convert a raised `InsufficientFundsError` into
a REJECTED result (returned without being stored), build the
REJECTED / PARTIAL / FILLED result from the filled quantity and store it
in the order map under its fresh broker order id. -/
def execute_at_price (s : MockBroker) (order : Order) (exec_price : ℚ) :
    Except PyErr (OrderResult × MockBroker) :=
  match dispatch_execute s order exec_price with
  | Except.error ExecErr.zeroDiv => Except.error PyErr.zeroDivisionError
  | Except.error (ExecErr.insufficientFunds msg) =>
      Except.ok (create_rejected_result s order msg)
  | Except.ok fs =>
      let filled_qty := fs.1
      let s1 := fs.2
      let rs :=
        if filled_qty = 0 then create_rejected_result s1 order "No quantity filled"
        else if filled_qty < order.quantity then createPartialResult s1 order filled_qty exec_price
        else create_filled_result s1 order filled_qty exec_price
      Except.ok (rs.1, { rs.2 with orders := dictInsert rs.1.order_id rs.1 rs.2.orders })

/-- `MockBroker.submit_order`. -/
def submit_order (s : MockBroker) (order : Order) : Except PyErr (OrderResult × MockBroker) :=
  match get_current_price s order.ticker with
  | none =>
      Except.ok (create_rejected_result s order ("No price available for " ++ order.ticker))
  | some current_price =>
      match determine_exec_price s order current_price with
      | Except.error e => Except.error e
      | Except.ok (Sum.inl rs) => Except.ok rs
      | Except.ok (Sum.inr exec_price) => execute_at_price s order exec_price

/-- `MockBroker.cancel_order`: flip a stored non-terminal order to
CANCELLED and report success; unknown id or terminal status reports
failure without mutation. -/
def cancel_order (s : MockBroker) (order_id : ℕ) : Bool × MockBroker :=
  match List.lookup order_id s.orders with
  | none => (false, s)
  | some o =>
      if o.status.is_terminal then (false, s)
      else
        (true,
         { s with orders := dictInsert order_id { o with status := OrderStatus.cancelled } s.orders })

/-- `MockBroker.get_order`. -/
def get_order (s : MockBroker) (order_id : ℕ) : Option OrderResult :=
  List.lookup order_id s.orders

/-- `MockBroker.get_account`: equity is cash plus the sum of the
positions' stored `market_value` fields as they are. -/
def get_account (s : MockBroker) : AccountInfo :=
  let positions_value := (s.positions.map (fun kv => kv.2.market_value)).sum
  { account_id := "mock-account"
    cash := s.cash
    buying_power := s.cash - s.margin_used
    equity := s.cash + positions_value
    margin_used := s.margin_used
    margin_available := s.cash - s.margin_used
    day_trade_count := 0
    is_paper := true }

/-- The refresh a position read performs: `update_market_data` at the
current price, skipped when no price is available or the price is falsy
(`if price:` in the source, so a `0.0` price does not refresh). -/
def refresh_position (s : MockBroker) (ticker : String) (p : Position) : Position :=
  match get_current_price s ticker with
  | some price => if price ≠ 0 then p.update_market_data price else p
  | none => p

/-- The state mutation of `MockBroker.get_positions`: every stored
position is refreshed in place. -/
def get_positions_state (s : MockBroker) : MockBroker :=
  { s with positions := s.positions.map (fun kv => (kv.1, refresh_position s kv.1 kv.2)) }

/-- `MockBroker.get_positions`: refresh all stored positions with
current prices and return the map. -/
def get_positions (s : MockBroker) : List (String × Position) × MockBroker :=
  ((get_positions_state s).positions, get_positions_state s)

/-- `MockBroker.get_position`: refresh the single stored position (in
place) and return it. -/
def get_position (s : MockBroker) (ticker : String) : Option Position × MockBroker :=
  match List.lookup ticker s.positions with
  | none => (none, s)
  | some p =>
      let p' := refresh_position s ticker p
      (some p', { s with positions := dictInsert ticker p' s.positions })

/-- A position entry of the persisted-state JSON: `none` fields model
absent keys. -/
structure PosJson where
  quantity : Option ℤ := none
  side : Option String := none
  average_cost : Option ℚ := none
  realized_pnl : Option ℚ := none
deriving DecidableEq

/-- An order entry of the persisted-state JSON: `none` fields model
absent keys (`average_price`, `message` and `filled_at` are read with
`.get` in the source, the rest are required). -/
structure OrderJson where
  order_id : Option ℕ := none
  client_order_id : Option ℕ := none
  ticker : Option String := none
  side : Option String := none
  quantity_requested : Option ℤ := none
  quantity_filled : Option ℤ := none
  status : Option String := none
  average_price : Option ℚ := none
  message : Option String := none
  submitted_at : Option ℕ := none
  filled_at : Option ℕ := none
deriving DecidableEq

/-- The top level of the persisted-state JSON written by `save_state`. -/
structure StateJson where
  initial_cash : Option ℚ := none
  cash : Option ℚ := none
  margin_requirement : Option ℚ := none
  margin_used : Option ℚ := none
  max_slippage : Option ℚ := none
  positions : Option (List (String × PosJson)) := none
  orders : Option (List (ℕ × OrderJson)) := none
  prices : Option (List (String × ℚ)) := none
deriving DecidableEq

/-- Reconstruction of one position in `load_state`: `quantity`, `side`
and `average_cost` are required (a missing one is the `KeyError` the
handler catches, an unknown side string the `ValueError`), while
`realized_pnl` defaults to `0.0`. -/
def parsePosition (ticker : String) (pj : PosJson) : Option Position :=
  match pj.quantity, pj.side, pj.average_cost with
  | some q, some sideStr, some ac =>
      match PositionSide.ofValue sideStr with
      | some side =>
          some { ticker := ticker, quantity := q, side := side, average_cost := ac,
                 realized_pnl := pj.realized_pnl.getD 0 }
      | none => none
  | _, _, _ => none

/-- The position-restoration loop of `load_state`: entries are inserted
one by one, so a failure keeps the entries inserted before it (the flag
reports whether the whole loop succeeded). -/
def loadPositionsLoop : List (String × PosJson) → List (String × Position) × Bool
  | [] => ([], true)
  | (t, pj) :: rest =>
      match parsePosition t pj with
      | none => ([], false)
      | some p =>
          let tail := loadPositionsLoop rest
          ((t, p) :: tail.1, tail.2)

/-- Reconstruction of one `OrderResult` in `load_state`. -/
def parseOrderResult (oj : OrderJson) : Option OrderResult :=
  match oj.order_id, oj.client_order_id, oj.ticker, oj.side, oj.quantity_requested,
        oj.quantity_filled, oj.status, oj.submitted_at with
  | some oid, some cid, some tk, some sideStr, some qr, some qf, some stStr, some sub =>
      match OrderSide.ofValue sideStr, OrderStatus.ofValue stStr with
      | some side, some st =>
          some { order_id := oid, client_order_id := cid, ticker := tk, side := side,
                 quantity_requested := qr, quantity_filled := qf, status := st,
                 average_price := oj.average_price, message := oj.message,
                 submitted_at := sub, filled_at := oj.filled_at }
      | _, _ => none
  | _, _, _, _, _, _, _, _ => none

/-- The order-restoration loop of `load_state`, with the same
partial-on-failure semantics as the position loop. -/
def loadOrdersLoop : List (ℕ × OrderJson) → List (ℕ × OrderResult) × Bool
  | [] => ([], true)
  | (oid, oj) :: rest =>
      match parseOrderResult oj with
      | none => ([], false)
      | some r =>
          let tail := loadOrdersLoop rest
          ((oid, r) :: tail.1, tail.2)

/-- `MockBroker.load_state`.  `none` models a missing file or malformed
JSON (both reported before any assignment).  The required top-level
fields are assigned one at a time inside the `try` block, so a missing
field aborts with the assignments made so far kept — exactly the
source's behavior, where the `except` handler only prints and returns
`False`.  `max_slippage` defaults to `0.005` and `prices`, `positions`
and `orders` to empty, for forward compatibility. -/
def load_state (s : MockBroker) (file : Option StateJson) : Bool × MockBroker :=
  match file with
  | none => (false, s)
  | some st =>
      match st.initial_cash with
      | none => (false, s)
      | some ic =>
          let s1 := { s with initial_cash := ic }
          match st.cash with
          | none => (false, s1)
          | some c =>
              let s2 := { s1 with cash := c }
              match st.margin_requirement with
              | none => (false, s2)
              | some mr =>
                  let s3 := { s2 with margin_requirement := mr }
                  match st.margin_used with
                  | none => (false, s3)
                  | some mu =>
                      let s4 := { s3 with
                                  margin_used := mu
                                  max_slippage := st.max_slippage.getD (1/200)
                                  prices := st.prices.getD [] }
                      let posRes := loadPositionsLoop (st.positions.getD [])
                      let s5 := { s4 with positions := posRes.1 }
                      if posRes.2 = false then (false, s5)
                      else
                        let ordRes := loadOrdersLoop (st.orders.getD [])
                        let s6 := { s5 with orders := ordRes.1 }
                        if ordRes.2 = false then (false, s6)
                        else (true, s6)

/-- The result part of a `submit_order` run (`none` when the call
raised). -/
def submitResult (e : Except PyErr (OrderResult × MockBroker)) : Option OrderResult :=
  match e with
  | Except.ok rs => some rs.1
  | Except.error _ => none

/-- The state after a `submit_order` run, the pre-call state when the
call raised. -/
def submitState (s : MockBroker) (e : Except PyErr (OrderResult × MockBroker)) : MockBroker :=
  match e with
  | Except.ok rs => rs.2
  | Except.error _ => s

/-- Whether a `submit_order` run returned normally. -/
def submitIsOk (e : Except PyErr (OrderResult × MockBroker)) : Bool :=
  match e with
  | Except.ok _ => true
  | Except.error _ => false

/-- Whether a `submit_order` run, if it returned a REJECTED result,
attached a message to it (vacuously true otherwise). -/
def rejectedHasMessage (e : Except PyErr (OrderResult × MockBroker)) : Bool :=
  match e with
  | Except.ok rs => !(rs.1.status == OrderStatus.rejected) || rs.1.message.isSome
  | Except.error _ => true

/-- The filled quantity of an execution-primitive run (`0` when it
raised). -/
def execFill (e : Except ExecErr (ℤ × MockBroker)) : ℤ :=
  match e with
  | Except.ok fs => fs.1
  | Except.error _ => 0

/-- The state after an execution-primitive run, the pre-call state when
it raised. -/
def execState (s : MockBroker) (e : Except ExecErr (ℤ × MockBroker)) : MockBroker :=
  match e with
  | Except.ok fs => fs.2
  | Except.error _ => s

/-- Whether an execution-primitive run raised `InsufficientFundsError`. -/
def isInsufficientFunds (e : Except ExecErr (ℤ × MockBroker)) : Bool :=
  match e with
  | Except.error (ExecErr.insufficientFunds _) => true
  | _ => false

set_option maxRecDepth 10000

theorem lookup_dictInsert_self {α β : Type} [BEq α] [LawfulBEq α] (k : α) (v : β) :
    ∀ l : List (α × β), List.lookup k (dictInsert k v l) = some v
  | [] => by simp [dictInsert, List.lookup]
  | (k', v') :: rest => by
      by_cases h : k' = k
      · simp [dictInsert, h, List.lookup]
      · have hb : (k' == k) = false := beq_eq_false_iff_ne.mpr h
        have hb' : (k == k') = false := beq_eq_false_iff_ne.mpr (Ne.symm h)
        simp [dictInsert, hb, hb', List.lookup, lookup_dictInsert_self k v rest]

theorem lookup_dictInsert_ne {α β : Type} [BEq α] [LawfulBEq α] (k₁ k₂ : α) (v : β)
    (h : k₁ ≠ k₂) : ∀ l : List (α × β), List.lookup k₁ (dictInsert k₂ v l) = List.lookup k₁ l
  | [] => by simp [dictInsert, List.lookup, beq_eq_false_iff_ne.mpr h]
  | (k', v') :: rest => by
      by_cases hk : k' = k₂
      · subst hk
        simp [dictInsert, List.lookup, beq_eq_false_iff_ne.mpr h]
      · simp [dictInsert, beq_eq_false_iff_ne.mpr hk, List.lookup,
              lookup_dictInsert_ne k₁ k₂ v h rest]

theorem lookup_dictErase_self {α β : Type} [BEq α] [LawfulBEq α] (k : α) :
    ∀ l : List (α × β), List.lookup k (dictErase k l) = none
  | [] => by simp [dictErase, List.lookup]
  | (k', v') :: rest => by
      have ih := lookup_dictErase_self k rest
      by_cases h : k' = k
      · subst h
        simpa [dictErase, List.filter] using ih
      · have hb : (k' == k) = false := beq_eq_false_iff_ne.mpr h
        have hb' : (k == k') = false := beq_eq_false_iff_ne.mpr (Ne.symm h)
        simpa [dictErase, hb, hb', List.filter, List.lookup] using ih

/-- Claim C3 (amended): `load_state` reports failure as a boolean, and
when the failure is a missing file or malformed JSON (reported before
any field is read) the in-memory ledger is left exactly as it was.  A
missing required field, however, aborts mid-restore and keeps the
assignments made before the failure (see the counterexample). -/
theorem load_state_before_parse_preserves_state (s : MockBroker) :
    load_state s none = (false, s) := rfl

/-- Claim C3 counterexample: loading a blob that has `initial_cash` but
no `cash` field returns `False`, yet the in-memory `initial_cash` has
already been overwritten — the ledger is not left as it was. -/
theorem load_state_missing_field_mutates_state :
    (load_state (mkBroker 100000 (1/2) 0 (1/200)) (some { initial_cash := some 42 })).1 = false ∧
    (load_state (mkBroker 100000 (1/2) 0 (1/200)) (some { initial_cash := some 42 })).2.initial_cash = 42 ∧
    (mkBroker 100000 (1/2) 0 (1/200)).initial_cash = 100000 ∧
    (42 : ℚ) ≠ 100000 := by
  refine ⟨rfl, ?_, rfl, ?_⟩ <;> with_unfolding_all decide

/-- Claim C9: `cancel_order` on a stored non-terminal order flips its
status to CANCELLED and returns `true`; on an unknown id or an order
already in a terminal status it returns `false` and mutates nothing. -/
theorem cancel_order_spec (s : MockBroker) (oid : ℕ) :
    (List.lookup oid s.orders = none → cancel_order s oid = (false, s)) ∧
    ((List.lookup oid s.orders).map (fun o => o.status.is_terminal) = some true →
      cancel_order s oid = (false, s)) ∧
    ((List.lookup oid s.orders).map (fun o => o.status.is_terminal) = some false →
      (cancel_order s oid).1 = true ∧
      List.lookup oid (cancel_order s oid).2.orders =
        (List.lookup oid s.orders).map (fun o => { o with status := OrderStatus.cancelled })) := by
  refine ⟨?_, ?_, ?_⟩ <;> intro h
  · simp [cancel_order, h]
  · obtain ⟨o, ho, ht⟩ := Option.map_eq_some'.mp h
    simp [cancel_order, ho, ht]
  · obtain ⟨o, ho, ht⟩ := Option.map_eq_some'.mp h
    refine ⟨?_, ?_⟩
    · simp [cancel_order, ho, ht]
    · simp only [cancel_order, ho, ht, Bool.false_eq_true, if_false]
      simpa [ho] using lookup_dictInsert_self oid { o with status := OrderStatus.cancelled } s.orders

/-- A broker state holding one PENDING and one FILLED order, for the C9
witness. -/
def c9State : MockBroker :=
  { mkBroker 1000 (1/2) 0 (1/200) with
    orders :=
      [(0, { order_id := 0, client_order_id := 7, ticker := "X", side := OrderSide.buy,
             quantity_requested := 5, quantity_filled := 0, status := OrderStatus.pending }),
       (1, { order_id := 1, client_order_id := 8, ticker := "X", side := OrderSide.buy,
             quantity_requested := 3, quantity_filled := 3, status := OrderStatus.filled })] }

/-- Claim C9 witness: on `c9State`, cancelling the PENDING order 0
succeeds and stores it as CANCELLED, while cancelling the FILLED order 1
fails and leaves the state untouched. -/
theorem cancel_order_spec_witness :
    ((cancel_order c9State 0).1 = true ∧
      List.lookup 0 (cancel_order c9State 0).2.orders =
        (List.lookup 0 c9State.orders).map (fun o => { o with status := OrderStatus.cancelled })) ∧
    cancel_order c9State 1 = (false, c9State) :=
  ⟨(cancel_order_spec c9State 0).2.2 (by with_unfolding_all decide),
   (cancel_order_spec c9State 1).2.1 (by with_unfolding_all decide)⟩

/-- Claim C10: a successful `cancel_order` mutates only the targeted
order's status field — cash, margin_used, positions, the price cache and
every other stored order are unchanged, and the targeted order keeps all
its other fields (so a PARTIAL order's executed cash/position effects
are never reversed). -/
theorem cancel_order_frame (s : MockBroker) (oid oid' : ℕ)
    (h : (cancel_order s oid).1 = true) :
    (cancel_order s oid).2.cash = s.cash ∧
    (cancel_order s oid).2.margin_used = s.margin_used ∧
    (cancel_order s oid).2.positions = s.positions ∧
    (cancel_order s oid).2.prices = s.prices ∧
    (oid' ≠ oid →
      List.lookup oid' (cancel_order s oid).2.orders = List.lookup oid' s.orders) ∧
    List.lookup oid (cancel_order s oid).2.orders =
      (List.lookup oid s.orders).map (fun o => { o with status := OrderStatus.cancelled }) := by
  cases ho : List.lookup oid s.orders with
  | none => rw [cancel_order, ho] at h; simp at h
  | some o =>
      cases ht : o.status.is_terminal with
      | true => rw [cancel_order, ho] at h; simp [ht] at h
      | false =>
          have hcan : cancel_order s oid =
              (true, { s with
                       orders := dictInsert oid { o with status := OrderStatus.cancelled } s.orders }) := by
            simp [cancel_order, ho, ht]
          rw [hcan]
          refine ⟨rfl, rfl, rfl, rfl, ?_, ?_⟩
          · intro hne
            exact lookup_dictInsert_ne oid' oid _ hne s.orders
          · simp only [ho, Option.map_some']
            exact lookup_dictInsert_self oid { o with status := OrderStatus.cancelled } s.orders

theorem determine_exec_price_inl (s : MockBroker) (o : Order) (cp : ℚ)
    (rs : OrderResult × MockBroker)
    (h : determine_exec_price s o cp = Except.ok (Sum.inl rs)) :
    rs = create_rejected_result s o "Slippage exceeds max" ∨
    rs = create_rejected_result s o "Limit price required" ∨
    rs = create_pending_result s o := by
  unfold determine_exec_price at h
  split at h
  · split at h
    · split at h
      · exact absurd h (by simp)
      · simp only [] at h
        split at h
        · simp only [Except.ok.injEq, Sum.inl.injEq] at h
          exact Or.inl h.symm
        · exact absurd h (by simp)
    · exact absurd h (by simp)
  · split at h
    · simp only [Except.ok.injEq, Sum.inl.injEq] at h
      exact Or.inr (Or.inl h.symm)
    · split at h
      · simp only [Except.ok.injEq, Sum.inl.injEq] at h
        exact Or.inr (Or.inr h.symm)
      · split at h
        · simp only [Except.ok.injEq, Sum.inl.injEq] at h
          exact Or.inr (Or.inr h.symm)
        · exact absurd h (by simp)
  · exact absurd h (by simp)

theorem execute_at_price_stores (s : MockBroker) (o : Order) (ep : ℚ)
    (h : (submitResult (execute_at_price s o ep)).map OrderResult.status ≠
      some OrderStatus.rejected) :
    (submitResult (execute_at_price s o ep)).bind
        (fun r => get_order (submitState s (execute_at_price s o ep)) r.order_id) =
      submitResult (execute_at_price s o ep) := by
  unfold execute_at_price at *
  cases hd : dispatch_execute s o ep with
  | error e =>
      cases e with
      | insufficientFunds msg =>
          rw [hd] at h
          simp only [submitResult, create_rejected_result, Option.map_some'] at h
          exact absurd rfl h
      | zeroDiv => rfl
  | ok fs =>
      simp only [submitResult, submitState, Option.bind, get_order]
      exact lookup_dictInsert_self _ _ _

/-- Claim C2 (amended): every OrderResult that `submit_order` returns
with a status other than REJECTED (FILLED, PARTIAL, or PENDING) is
stored in the order map under its freshly generated broker order id,
independently of the order's client id, so `get_order(result.order_id)`
afterwards returns it.  A REJECTED result may be returned without being
stored (see the counterexample): only the zero-quantity-filled rejection
of the execution phase is stored, the rejections produced before
execution (no price, slippage guard, missing limit price, insufficient
funds/margin) are not. -/
theorem submit_order_stores_nonrejected (s : MockBroker) (o : Order)
    (h : (submitResult (submit_order s o)).map OrderResult.status ≠
      some OrderStatus.rejected) :
    (submitResult (submit_order s o)).bind
        (fun r => get_order (submitState s (submit_order s o)) r.order_id) =
      submitResult (submit_order s o) := by
  unfold submit_order at *
  cases hp : get_current_price s o.ticker with
  | none =>
      rw [hp] at h
      simp only [submitResult, create_rejected_result, Option.map_some'] at h
      exact absurd rfl h
  | some cp =>
      rw [hp] at h
      simp only [] at h ⊢
      cases hd : determine_exec_price s o cp with
      | error e => rfl
      | ok v =>
          cases v with
          | inr ep =>
              rw [hd] at h
              exact execute_at_price_stores s o ep h
          | inl rs =>
              rw [hd] at h
              rcases determine_exec_price_inl s o cp rs hd with hr | hr | hr
              · rw [hr] at h
                simp only [submitResult, create_rejected_result, Option.map_some'] at h
                exact absurd rfl h
              · rw [hr] at h
                simp only [submitResult, create_rejected_result, Option.map_some'] at h
                exact absurd rfl h
              · rw [hr]
                simp only [submitResult, submitState, Option.bind, get_order,
                           create_pending_result]
                exact lookup_dictInsert_self _ _ _

/-- A broker state with a price for "X", for the C2 witness. -/
def c2WitnessState : MockBroker := set_price (mkBroker 100000 (1/2) 0 (1/200)) "X" 100

/-- A plain market buy of 5 "X", for the C2 witness. -/
def c2WitnessOrder : Order := { ticker := "X", side := OrderSide.buy, quantity := 5 }

/-- Claim C2 witness: the FILLED result of a concrete market buy is
found in the order map under its broker order id. -/
theorem submit_order_stores_nonrejected_witness :
    (submitResult (submit_order c2WitnessState c2WitnessOrder)).map OrderResult.status ≠
      some OrderStatus.rejected ∧
    (submitResult (submit_order c2WitnessState c2WitnessOrder)).bind
        (fun r => get_order (submitState c2WitnessState (submit_order c2WitnessState c2WitnessOrder))
          r.order_id) =
      submitResult (submit_order c2WitnessState c2WitnessOrder) :=
  ⟨by with_unfolding_all decide,
   submit_order_stores_nonrejected c2WitnessState c2WitnessOrder (by with_unfolding_all decide)⟩

/-- A broker state with no price for "Y", for the C2 counterexample. -/
def c2CexState : MockBroker := mkBroker 100000 (1/2) 0 (1/200)

/-- A market buy of 1 "Y" (no price is available), for the C2
counterexample. -/
def c2CexOrder : Order := { ticker := "Y", side := OrderSide.buy, quantity := 1 }

/-- Claim C2 counterexample: a no-price REJECTED result is returned by
`submit_order` but is not stored in the order map — `get_order` on its
broker order id returns nothing, contradicting the claim that every
returned result (including REJECTED ones) is stored. -/
theorem submit_order_rejected_not_stored :
    (submitResult (submit_order c2CexState c2CexOrder)).map OrderResult.status =
      some OrderStatus.rejected ∧
    (submitResult (submit_order c2CexState c2CexOrder)).bind
        (fun r => get_order (submitState c2CexState (submit_order c2CexState c2CexOrder))
          r.order_id) = none ∧
    (submitResult (submit_order c2CexState c2CexOrder)).isSome = true :=
  ⟨by with_unfolding_all decide, by with_unfolding_all decide, by with_unfolding_all decide⟩

/-- Claim C5 (amended): the removal-on-zero invariant holds for the two
reduce/close primitives — after a long sell or a short cover that fills
a positive quantity, the ticker's entry is either gone (fully closed)
or still has nonzero quantity; but it fails for `_execute_long_buy`,
which never removes an entry: a long buy applied to a ticker currently
held short that brings the quantity to zero leaves a zero-quantity
entry in the position map (see the counterexample). -/
theorem close_primitives_remove_zero_positions :
    (∀ (s : MockBroker) (t : String) (q : ℤ) (p : ℚ),
        0 < execFill (execute_long_sell s t q p) →
        optionHolds (fun pos => pos.quantity != 0)
          (List.lookup t (execState s (execute_long_sell s t q p)).positions) = true) ∧
    (∀ (s : MockBroker) (t : String) (q : ℤ) (p : ℚ),
        0 < execFill (execute_short_cover s t q p) →
        optionHolds (fun pos => pos.quantity != 0)
          (List.lookup t (execState s (execute_short_cover s t q p)).positions) = true) := by
  constructor
  · intro s t q p
    unfold execute_long_sell
    split
    · intro hf; exact absurd hf (by simp [execFill])
    · split
      · intro hf; exact absurd hf (by simp [execFill])
      · simp only []
        split
        · intro hf; exact absurd hf (by simp [execFill])
        · intro hf
          simp only [execFill, execState]
          split
          · simp [optionHolds, execState, lookup_dictErase_self]
          · rename_i hnz
            simp [optionHolds, execState, lookup_dictInsert_self, hnz]
  · intro s t q p
    unfold execute_short_cover
    split
    · intro hf; exact absurd hf (by simp [execFill])
    · split
      · intro hf; exact absurd hf (by simp [execFill])
      · simp only []
        split
        · intro hf; exact absurd hf (by simp [execFill])
        · intro hf
          simp only [execFill, execState]
          split
          · simp [optionHolds, execState, lookup_dictErase_self]
          · rename_i hnz
            simp [optionHolds, execState, lookup_dictInsert_self, hnz]

/-- A broker state holding a long position of 5 "X", for the C5
witness's long-sell part. -/
def c5SellState : MockBroker :=
  { mkBroker 1000 (1/2) 0 (1/200) with
    positions := [("X", { ticker := "X", quantity := 5, side := PositionSide.long,
                          average_cost := 10 })] }

/-- A broker state holding a short position of 5 "X", for the C5
witness's short-cover part. -/
def c5CoverState : MockBroker :=
  { mkBroker 1000 (1/2) 0 (1/200) with
    margin_used := 25
    positions := [("X", { ticker := "X", quantity := -5, side := PositionSide.short,
                          average_cost := 10 })] }

/-- Claim C5 witness: selling the whole long position erases the entry
(quantity hit zero) and partially covering the short leaves a nonzero
entry — in both cases no zero-quantity entry remains. -/
theorem close_primitives_remove_zero_positions_witness :
    (0 < execFill (execute_long_sell c5SellState "X" 5 10) ∧
      optionHolds (fun pos => pos.quantity != 0)
        (List.lookup "X" (execState c5SellState (execute_long_sell c5SellState "X" 5 10)).positions) =
        true) ∧
    (0 < execFill (execute_short_cover c5CoverState "X" 3 10) ∧
      optionHolds (fun pos => pos.quantity != 0)
        (List.lookup "X"
          (execState c5CoverState (execute_short_cover c5CoverState "X" 3 10)).positions) = true) :=
  ⟨⟨by with_unfolding_all decide,
    close_primitives_remove_zero_positions.1 c5SellState "X" 5 10 (by with_unfolding_all decide)⟩,
   ⟨by with_unfolding_all decide,
    close_primitives_remove_zero_positions.2 c5CoverState "X" 3 10 (by with_unfolding_all decide)⟩⟩

/-- Fresh broker with a price for "X", from which the C5 counterexample
runs two submissions. -/
def c5Cex0 : MockBroker := set_price (mkBroker 100000 (1/2) 0 (1/200)) "X" 10

/-- State after a filled short sell of 5 "X" from `c5Cex0`. -/
def c5Cex1 : MockBroker :=
  submitState c5Cex0 (submit_order c5Cex0
    { ticker := "X", side := OrderSide.sell, quantity := 5,
      position_side := PositionSide.short })

/-- State after a further long market buy of 5 "X" (applied to the
short holding) from `c5Cex1`. -/
def c5Cex2 : MockBroker :=
  submitState c5Cex1 (submit_order c5Cex1
    { ticker := "X", side := OrderSide.buy, quantity := 5 })

/-- Claim C5 counterexample: from a fresh broker, a filled short sell
of 5 "X" followed by a filled long buy of 5 "X" leaves the ticker's
entry in the position map with quantity exactly zero — the entry is not
removed when an execution primitive (here `_execute_long_buy` applied
to a short holding) brings the quantity to zero. -/
theorem long_buy_leaves_zero_quantity_entry :
    (submitResult (submit_order c5Cex0
      { ticker := "X", side := OrderSide.sell, quantity := 5,
        position_side := PositionSide.short })).map OrderResult.status =
      some OrderStatus.filled ∧
    (submitResult (submit_order c5Cex1
      { ticker := "X", side := OrderSide.buy, quantity := 5 })).map OrderResult.status =
      some OrderStatus.filled ∧
    (List.lookup "X" c5Cex2.positions).map (fun pos => pos.quantity) = some 0 :=
  ⟨by with_unfolding_all decide, by with_unfolding_all decide, by with_unfolding_all decide⟩

theorem pyInt_eq_floor_of_nonneg (x : ℚ) (h : 0 ≤ x) : pyInt x = ⌊x⌋ := if_pos h

/-- Claim C6 (amended): for a long buy at price p > 0 from a state with
nonnegative cash whose cost q*p exceeds the cash, the filled quantity is
exactly ⌊cash/p⌋, the fill consumes exactly that many shares' cost and
leaves cash nonnegative, and a zero clamp raises the insufficient-funds
condition (converted by the engine to a REJECTED result) with the state
untouched.  With negative cash — reachable through short covers — the
clamp is Python's `int` truncation toward zero, not the floor, and the
claim as stated fails (see the counterexample). -/
theorem long_buy_clamps_floor_nonneg_cash (s : MockBroker) (t : String) (q : ℤ) (p : ℚ)
    (hc : 0 ≤ s.cash) (hp : 0 < p) (hover : s.cash < (q : ℚ) * p) :
    execFill (execute_long_buy s t q p) = ⌊s.cash / p⌋ ∧
    (execState s (execute_long_buy s t q p)).cash = s.cash - (⌊s.cash / p⌋ : ℚ) * p ∧
    0 ≤ (execState s (execute_long_buy s t q p)).cash ∧
    (⌊s.cash / p⌋ = 0 →
      isInsufficientFunds (execute_long_buy s t q p) = true ∧
      execState s (execute_long_buy s t q p) = s) := by
  have hnn : 0 ≤ s.cash / p := div_nonneg hc hp.le
  have hclamp : (if 0 < p then pyInt (s.cash / p) else 0) = ⌊s.cash / p⌋ := by
    rw [if_pos hp, pyInt_eq_floor_of_nonneg _ hnn]
  have hfl : ((⌊s.cash / p⌋ : ℚ)) * p ≤ s.cash := by
    have h1 : (⌊s.cash / p⌋ : ℚ) ≤ s.cash / p := Int.floor_le _
    calc (⌊s.cash / p⌋ : ℚ) * p ≤ (s.cash / p) * p :=
          mul_le_mul_of_nonneg_right h1 hp.le
      _ = s.cash := div_mul_cancel₀ _ hp.ne'
  have hrun : execute_long_buy s t q p =
      if ⌊s.cash / p⌋ = 0 then
        Except.error (ExecErr.insufficientFunds ("Insufficient cash for " ++ t))
      else execute_long_buy_fill s t ⌊s.cash / p⌋ p := by
    unfold execute_long_buy
    simp only []
    rw [if_pos hover, hclamp]
  rw [hrun]
  by_cases hz : ⌊s.cash / p⌋ = 0
  · rw [if_pos hz]
    refine ⟨by simpa [execFill] using hz.symm, ?_, by simpa [execState] using hc, ?_⟩
    · simp [execState, hz]
    · intro _
      exact ⟨rfl, rfl⟩
  · rw [if_neg hz]
    unfold execute_long_buy_fill
    refine ⟨rfl, rfl, ?_, ?_⟩
    · simpa [execState] using sub_nonneg.mpr hfl
    · intro h0
      exact absurd h0 hz

/-- A broker with 100 cash and no positions, for the C6 witness. -/
def c6WitnessState : MockBroker := mkBroker 100 (1/2) 0 (1/200)

/-- Claim C6 witness: buying 5 shares at 30 with 100 cash clamps the
fill to ⌊100/30⌋ = 3 shares, consumes 90, and leaves 10 ≥ 0. -/
theorem long_buy_clamps_floor_nonneg_cash_witness :
    (0 ≤ c6WitnessState.cash ∧ (0 : ℚ) < 30 ∧ c6WitnessState.cash < ((5 : ℤ) : ℚ) * 30) ∧
    (execFill (execute_long_buy c6WitnessState "X" 5 30) = ⌊c6WitnessState.cash / 30⌋ ∧
      (execState c6WitnessState (execute_long_buy c6WitnessState "X" 5 30)).cash =
        c6WitnessState.cash - (⌊c6WitnessState.cash / 30⌋ : ℚ) * 30 ∧
      0 ≤ (execState c6WitnessState (execute_long_buy c6WitnessState "X" 5 30)).cash ∧
      (⌊c6WitnessState.cash / 30⌋ = 0 →
        isInsufficientFunds (execute_long_buy c6WitnessState "X" 5 30) = true ∧
        execState c6WitnessState (execute_long_buy c6WitnessState "X" 5 30) = c6WitnessState)) :=
  ⟨⟨by with_unfolding_all decide, by with_unfolding_all decide, by with_unfolding_all decide⟩,
   long_buy_clamps_floor_nonneg_cash c6WitnessState "X" 5 30
     (by with_unfolding_all decide) (by with_unfolding_all decide) (by with_unfolding_all decide)⟩

/-- Fresh broker with 100 cash and price 10 for "X"; start of the C6
counterexample chain. -/
def c6Cex0 : MockBroker := set_price (mkBroker 100 (1/2) 0 (1/200)) "X" 10

/-- After a filled short sell of 10 "X" at 10 (cash 150, margin 50). -/
def c6Cex1 : MockBroker :=
  submitState c6Cex0 (submit_order c6Cex0
    { ticker := "X", side := OrderSide.sell, quantity := 10,
      position_side := PositionSide.short })

/-- Price of "X" moves to 31. -/
def c6Cex2 : MockBroker := set_price c6Cex1 "X" 31

/-- After covering the 10 short "X" at 31: the simplified margin
release leaves cash at -5. -/
def c6Cex3 : MockBroker :=
  submitState c6Cex2 (submit_order c6Cex2
    { ticker := "X", side := OrderSide.buy, quantity := 10,
      position_side := PositionSide.short })

/-- Price of "X" back to 10. -/
def c6Cex4 : MockBroker := set_price c6Cex3 "X" 10

/-- A long market buy of 1 "X", submitted with cash -5. -/
def c6CexOrder : Order := { ticker := "X", side := OrderSide.buy, quantity := 1 }

/-- Claim C6 counterexample: the state `c6Cex4`, reachable from a fresh
broker by public operations, has cash -5; a long buy of 1 at price 10
has cost exceeding cash, and the claim then says the fill quantity is
clamped to ⌊-5/10⌋ = -1 (nonzero, so not the rejection case) — but the
code truncates `int(-0.5)` to 0 and rejects, filling 0 ≠ -1. -/
theorem long_buy_negative_cash_not_floor :
    c6Cex4.cash = -5 ∧
    (0 : ℚ) < 10 ∧ c6Cex4.cash < ((1 : ℤ) : ℚ) * 10 ∧
    ⌊c6Cex4.cash / 10⌋ = -1 ∧
    (submitResult (submit_order c6Cex4 c6CexOrder)).map OrderResult.quantity_filled = some 0 ∧
    (submitResult (submit_order c6Cex4 c6CexOrder)).map OrderResult.status =
      some OrderStatus.rejected ∧
    (submitResult (submit_order c6Cex4 c6CexOrder)).map OrderResult.quantity_filled ≠
      some ⌊c6Cex4.cash / 10⌋ :=
  ⟨by with_unfolding_all decide, by with_unfolding_all decide, by with_unfolding_all decide,
   by with_unfolding_all decide, by with_unfolding_all decide, by with_unfolding_all decide,
   by with_unfolding_all decide⟩

/-- The state after a first long buy (the fallback is the pre-call
state, unreachable under the fully-filled hypotheses of C7). -/
def firstBuyState (s : MockBroker) (t : String) (q1 : ℤ) (p1 : ℚ) : MockBroker :=
  execState s (execute_long_buy s t q1 p1)

/-- The state after two sequential long buys on one ticker. -/
def buyTwiceState (s : MockBroker) (t : String) (q1 : ℤ) (p1 : ℚ) (q2 : ℤ) (p2 : ℚ) :
    MockBroker :=
  execState (firstBuyState s t q1 p1)
    (execute_long_buy (firstBuyState s t q1 p1) t q2 p2)

/-- Claim C7: starting from no position in a ticker, two fully-filled
sequential long buys of q1 shares at price p1 and q2 shares at price p2
leave the position's average cost at exactly
(q1*p1 + q2*p2)/(q1 + q2) — the weighted-average update is exact over
the rational model of the float arithmetic. -/
theorem two_buys_average_cost (s : MockBroker) (t : String) (q1 : ℤ) (p1 : ℚ)
    (q2 : ℤ) (p2 : ℚ)
    (h0 : List.lookup t s.positions = none)
    (hq1 : 0 < q1) (hq2 : 0 < q2)
    (hc1 : (q1 : ℚ) * p1 ≤ s.cash)
    (hc2 : (q2 : ℚ) * p2 ≤ s.cash - (q1 : ℚ) * p1) :
    execFill (execute_long_buy s t q1 p1) = q1 ∧
    execFill (execute_long_buy (firstBuyState s t q1 p1) t q2 p2) = q2 ∧
    (List.lookup t (buyTwiceState s t q1 p1 q2 p2).positions).map
        (fun pos => pos.average_cost) =
      some (((q1 : ℚ) * p1 + (q2 : ℚ) * p2) / ((q1 : ℚ) + (q2 : ℚ))) := by
  have hq1ne : (q1 : ℚ) ≠ 0 := Int.cast_ne_zero.mpr hq1.ne'
  have hA : (((q1 : ℚ) * p1 > s.cash)) = False := eq_false (not_lt.mpr hc1)
  have hB : ((0 : ℤ) < 0 + q1) = True := eq_true (by omega)
  have hB' : ((0 : ℤ) < q1) = True := eq_true hq1
  have h1 : execute_long_buy s t q1 p1 =
      execute_long_buy_fill s t q1 p1 := by
    unfold execute_long_buy
    simp only [hA, if_false]
  have hpos1 : get_or_create_position s.positions t PositionSide.long =
      ({ ticker := t, quantity := 0, side := PositionSide.long, average_cost := 0 },
       dictInsert t { ticker := t, quantity := 0, side := PositionSide.long, average_cost := 0 }
         s.positions) := by
    unfold get_or_create_position
    rw [h0]
  have h2 : execute_long_buy_fill s t q1 p1 =
      Except.ok (q1,
        { s with
          positions := dictInsert t
            { ticker := t, quantity := q1, side := PositionSide.long,
              average_cost := p1 * (q1 : ℚ) / (q1 : ℚ) }
            (dictInsert t
              { ticker := t, quantity := 0, side := PositionSide.long, average_cost := 0 }
              s.positions)
          cash := s.cash - (q1 : ℚ) * p1 }) := by
    unfold execute_long_buy_fill
    rw [hpos1]
    simp only [hB, hB', if_true, zero_add, Int.cast_zero, mul_zero, zero_mul]
  have hs1 : firstBuyState s t q1 p1 =
      { s with
        positions := dictInsert t
          { ticker := t, quantity := q1, side := PositionSide.long,
            average_cost := p1 * (q1 : ℚ) / (q1 : ℚ) }
          (dictInsert t
            { ticker := t, quantity := 0, side := PositionSide.long, average_cost := 0 }
            s.positions)
        cash := s.cash - (q1 : ℚ) * p1 } := by
    unfold firstBuyState
    rw [h1, h2]
    rfl
  have hC : (((q2 : ℚ) * p2 > s.cash - (q1 : ℚ) * p1)) = False := eq_false (not_lt.mpr hc2)
  have hD : ((0 : ℤ) < q1 + q2) = True := eq_true (by omega)
  refine ⟨?_, ?_, ?_⟩
  · rw [h1, h2]
    rfl
  · rw [hs1]
    unfold execute_long_buy execute_long_buy_fill get_or_create_position
    simp only [hC, if_false, lookup_dictInsert_self, hD, if_true, execFill]
  · unfold buyTwiceState
    rw [hs1]
    unfold execute_long_buy execute_long_buy_fill get_or_create_position
    simp only [hC, if_false, lookup_dictInsert_self, hD, if_true, execState,
               Option.map_some']
    congr 1
    rw [div_mul_cancel₀ _ hq1ne]
    push_cast
    ring_nf
/-- Fresh broker with 100000 cash, for the C7 witness. -/
def c7WitnessState : MockBroker := mkBroker 100000 (1/2) 0 (1/200)

/-- Claim C7 witness: buying 500 at 100 and then 300 at 50 gives
average cost (500*100 + 300*50)/800 exactly. -/
theorem two_buys_average_cost_witness :
    (List.lookup "X" c7WitnessState.positions = none ∧ (0 : ℤ) < 500 ∧ (0 : ℤ) < 300 ∧
      ((500 : ℤ) : ℚ) * 100 ≤ c7WitnessState.cash ∧
      ((300 : ℤ) : ℚ) * 50 ≤ c7WitnessState.cash - ((500 : ℤ) : ℚ) * 100) ∧
    (execFill (execute_long_buy c7WitnessState "X" 500 100) = 500 ∧
      execFill (execute_long_buy (firstBuyState c7WitnessState "X" 500 100) "X" 300 50) = 300 ∧
      (List.lookup "X" (buyTwiceState c7WitnessState "X" 500 100 300 50).positions).map
          (fun pos => pos.average_cost) =
        some ((((500 : ℤ) : ℚ) * 100 + ((300 : ℤ) : ℚ) * 50) /
          (((500 : ℤ) : ℚ) + ((300 : ℤ) : ℚ)))) :=
  ⟨⟨rfl, by decide, by decide, by with_unfolding_all decide, by with_unfolding_all decide⟩,
   two_buys_average_cost c7WitnessState "X" 500 100 300 50 rfl (by decide) (by decide)
     (by with_unfolding_all decide) (by with_unfolding_all decide)⟩

/-- Claim C8: a buy limit order while the current price exceeds the
limit, and a sell limit order while the current price is below the
limit, yields a PENDING result that is stored in the order map with
zero filled quantity and no mutation of cash, positions, margin or
prices (not REJECTED); otherwise the order executes through the
execution phase exactly at the limit price, with no slippage applied. -/
theorem limit_order_pending_or_exec (s : MockBroker) (o : Order) (lp cp : ℚ)
    (hl : o.order_type = OrderType.limit)
    (hlp : o.limit_price = some lp)
    (hcp : get_current_price s o.ticker = some cp) :
    ((o.side = OrderSide.buy ∧ cp > lp) ∨ (o.side = OrderSide.sell ∧ cp < lp) →
      (submitResult (submit_order s o)).map OrderResult.status = some OrderStatus.pending ∧
      (submitResult (submit_order s o)).map OrderResult.quantity_filled = some 0 ∧
      (submitResult (submit_order s o)).bind
          (fun r => get_order (submitState s (submit_order s o)) r.order_id) =
        submitResult (submit_order s o) ∧
      (submitState s (submit_order s o)).cash = s.cash ∧
      (submitState s (submit_order s o)).positions = s.positions ∧
      (submitState s (submit_order s o)).margin_used = s.margin_used ∧
      (submitState s (submit_order s o)).prices = s.prices) ∧
    (¬(o.side = OrderSide.buy ∧ cp > lp) → ¬(o.side = OrderSide.sell ∧ cp < lp) →
      submit_order s o = execute_at_price s o lp) := by
  have hsub : submit_order s o =
      (match determine_exec_price s o cp with
      | Except.error e => Except.error e
      | Except.ok (Sum.inl rs) => Except.ok rs
      | Except.ok (Sum.inr exec_price) => execute_at_price s o exec_price) := by
    unfold submit_order
    rw [hcp]
  have hdet : determine_exec_price s o cp =
      (if o.side = OrderSide.buy ∧ cp > lp then
        Except.ok (Sum.inl (create_pending_result s o))
      else if o.side = OrderSide.sell ∧ cp < lp then
        Except.ok (Sum.inl (create_pending_result s o))
      else Except.ok (Sum.inr lp)) := by
    simp only [determine_exec_price, hl, hlp]
  constructor
  · intro hcase
    have hpend : submit_order s o = Except.ok (create_pending_result s o) := by
      rw [hsub, hdet]
      rcases hcase with h | h
      · rw [if_pos h]
      · by_cases hb : o.side = OrderSide.buy ∧ cp > lp
        · rw [if_pos hb]
        · rw [if_neg hb, if_pos h]
    rw [hpend]
    refine ⟨rfl, rfl, ?_, rfl, rfl, rfl, rfl⟩
    simp only [submitResult, submitState, Option.bind, get_order, create_pending_result]
    exact lookup_dictInsert_self _ _ _
  · intro hb hs
    rw [hsub, hdet, if_neg hb, if_neg hs]

/-- A broker state with price 100 for "X", for the C8 witness. -/
def c8WitnessState : MockBroker := set_price (mkBroker 100000 (1/2) 0 (1/200)) "X" 100

/-- A buy limit order at 90 while the price is 100, for the C8 witness. -/
def c8WitnessOrder : Order :=
  { ticker := "X", side := OrderSide.buy, quantity := 10,
    order_type := OrderType.limit, limit_price := some 90 }

/-- Claim C8 witness: the unreached buy limit at 90 under price 100
yields a stored PENDING result with zero fill and no ledger mutation. -/
theorem limit_order_pending_or_exec_witness :
    (c8WitnessOrder.order_type = OrderType.limit ∧
      c8WitnessOrder.limit_price = some 90 ∧
      get_current_price c8WitnessState c8WitnessOrder.ticker = some 100 ∧
      c8WitnessOrder.side = OrderSide.buy ∧ (100 : ℚ) > 90) ∧
    ((submitResult (submit_order c8WitnessState c8WitnessOrder)).map OrderResult.status =
        some OrderStatus.pending ∧
      (submitResult (submit_order c8WitnessState c8WitnessOrder)).map
          OrderResult.quantity_filled = some 0 ∧
      (submitResult (submit_order c8WitnessState c8WitnessOrder)).bind
          (fun r => get_order
            (submitState c8WitnessState (submit_order c8WitnessState c8WitnessOrder))
            r.order_id) =
        submitResult (submit_order c8WitnessState c8WitnessOrder) ∧
      (submitState c8WitnessState (submit_order c8WitnessState c8WitnessOrder)).cash =
        c8WitnessState.cash ∧
      (submitState c8WitnessState (submit_order c8WitnessState c8WitnessOrder)).positions =
        c8WitnessState.positions ∧
      (submitState c8WitnessState (submit_order c8WitnessState c8WitnessOrder)).margin_used =
        c8WitnessState.margin_used ∧
      (submitState c8WitnessState (submit_order c8WitnessState c8WitnessOrder)).prices =
        c8WitnessState.prices) :=
  ⟨⟨rfl, rfl, by with_unfolding_all decide, rfl, by with_unfolding_all decide⟩,
   (limit_order_pending_or_exec c8WitnessState c8WitnessOrder 90 100 rfl rfl
       (by with_unfolding_all decide)).1
     (Or.inl ⟨rfl, by with_unfolding_all decide⟩)⟩

theorem refreshed_market_values (s : MockBroker) :
    ∀ l : List (String × Position),
      l.all (fun kv => ((get_current_price s kv.1).getD 0 != 0)) = true →
      (l.map (fun kv => (refresh_position s kv.1 kv.2).market_value)).sum =
        (l.map (fun kv => |(kv.2.quantity : ℚ)| * ((get_current_price s kv.1).getD 0))).sum
  | [], _ => rfl
  | (t, p) :: rest, h => by
      rw [List.all_cons, Bool.and_eq_true] at h
      obtain ⟨h1, h2⟩ := h
      have ih := refreshed_market_values s rest h2
      simp only [List.map_cons, List.sum_cons, ih]
      congr 1
      cases hp : get_current_price s t with
      | none => rw [hp] at h1; simp at h1
      | some pr =>
          rw [hp] at h1
          have hne : pr ≠ 0 := by simpa using h1
          simp [refresh_position, hp, hne, Position.update_market_data]

/-- Claim C4 (amended): `get_account` reports equity equal to cash plus
the sum of the positions' stored `market_value` fields, which
`get_account` itself does not recompute; the market values are
recomputed from the latest cached price only by a position read
(`get_position`/`get_positions`), so after refreshing all positions via
`get_positions` (every held ticker having an available nonzero price)
the reported equity equals cash plus the market values recomputed at
current prices.  Immediately after a fill, with no position read in
between, the reported equity uses the stale stored market values (0.0
for a freshly opened position) — see the counterexample. -/
theorem get_account_equity_stored_values :
    (∀ s : MockBroker,
      (get_account s).equity =
        s.cash + (s.positions.map (fun kv => kv.2.market_value)).sum) ∧
    (∀ s : MockBroker,
      s.positions.all (fun kv => ((get_current_price s kv.1).getD 0 != 0)) = true →
      (get_account (get_positions_state s)).equity =
        s.cash + (s.positions.map
          (fun kv => |(kv.2.quantity : ℚ)| * ((get_current_price s kv.1).getD 0))).sum) := by
  constructor
  · intro s
    rfl
  · intro s h
    have hmain : (get_account (get_positions_state s)).equity =
        s.cash + (s.positions.map (fun kv => (refresh_position s kv.1 kv.2).market_value)).sum := by
      simp only [get_account, get_positions_state, List.map_map]
      rfl
    rw [hmain, refreshed_market_values s s.positions h]

/-- A broker holding 5 "X" at a cached price of 20, for the C4
witness. -/
def c4WitnessState : MockBroker :=
  { set_price (mkBroker 1000 (1/2) 0 (1/200)) "X" 20 with
    cash := 900
    positions := [("X", { ticker := "X", quantity := 5, side := PositionSide.long,
                          average_cost := 10 })] }

/-- Claim C4 witness: after a `get_positions` refresh, equity is
900 + 5*20 as recomputed from the cached price. -/
theorem get_account_equity_stored_values_witness :
    c4WitnessState.positions.all
      (fun kv => ((get_current_price c4WitnessState kv.1).getD 0 != 0)) = true ∧
    (get_account (get_positions_state c4WitnessState)).equity =
      c4WitnessState.cash + (c4WitnessState.positions.map
        (fun kv => |(kv.2.quantity : ℚ)| *
          ((get_current_price c4WitnessState kv.1).getD 0))).sum :=
  ⟨by with_unfolding_all decide,
   get_account_equity_stored_values.2 c4WitnessState (by with_unfolding_all decide)⟩

/-- Fresh broker with 1000 cash and price 10 for "X", for the C4
counterexample. -/
def c4Cex0 : MockBroker := set_price (mkBroker 1000 (1/2) 0 (1/200)) "X" 10

/-- A market buy of 50 "X", for the C4 counterexample. -/
def c4CexOrder : Order := { ticker := "X", side := OrderSide.buy, quantity := 50 }

/-- State immediately after the filled buy of 50 "X" at 10. -/
def c4Cex1 : MockBroker := submitState c4Cex0 (submit_order c4Cex0 c4CexOrder)

/-- Claim C4 counterexample: immediately after a fill of 50 "X" at 10,
`get_account` reports equity 500 (cash plus the stale stored
market value 0.0 of the fresh position), while cash plus the position's
market value recomputed from the latest cached price is 1000 — the
reported equity is not cash plus current-price market values. -/
theorem get_account_equity_stale_after_fill :
    (submitResult (submit_order c4Cex0 c4CexOrder)).map OrderResult.status =
      some OrderStatus.filled ∧
    (get_account c4Cex1).equity = 500 ∧
    c4Cex1.cash + (c4Cex1.positions.map
      (fun kv => |(kv.2.quantity : ℚ)| * ((get_current_price c4Cex1 kv.1).getD 0))).sum =
      1000 ∧
    (get_account c4Cex1).equity ≠
      c4Cex1.cash + (c4Cex1.positions.map
        (fun kv => |(kv.2.quantity : ℚ)| * ((get_current_price c4Cex1 kv.1).getD 0))).sum :=
  ⟨by with_unfolding_all decide, by with_unfolding_all decide,
   by with_unfolding_all decide, by with_unfolding_all decide⟩

theorem execute_long_buy_no_zero_div (s : MockBroker) (t : String) (q : ℤ) (p : ℚ) :
    execute_long_buy s t q p ≠ Except.error ExecErr.zeroDiv := by
  intro heq
  unfold execute_long_buy execute_long_buy_fill at heq
  repeat ((try simp only [] at heq); split at heq)
  all_goals simp at heq

theorem execute_long_sell_no_err (s : MockBroker) (t : String) (q : ℤ) (p : ℚ)
    (e : ExecErr) : execute_long_sell s t q p ≠ Except.error e := by
  intro heq
  unfold execute_long_sell at heq
  split at heq
  · simp at heq
  · split at heq
    · simp at heq
    · simp only [] at heq
      split at heq <;> simp at heq

theorem execute_short_cover_no_err (s : MockBroker) (t : String) (q : ℤ) (p : ℚ)
    (e : ExecErr) : execute_short_cover s t q p ≠ Except.error e := by
  intro heq
  unfold execute_short_cover at heq
  split at heq
  · simp at heq
  · split at heq
    · simp at heq
    · simp only [] at heq
      split at heq <;> simp at heq

theorem execute_short_open_no_zero_div (s : MockBroker) (t : String) (q : ℤ) (p : ℚ)
    (hc : 0 ≤ s.cash) : execute_short_open s t q p ≠ Except.error ExecErr.zeroDiv := by
  intro heq
  unfold execute_short_open at heq
  simp only [] at heq
  split at heq
  · rename_i hgt
    split at heq
    · rename_i hz
      have hzero : p * (q : ℚ) * s.margin_requirement = 0 := by
        rw [mul_right_comm, hz, zero_mul]
      rw [hzero] at hgt
      exact absurd hc (not_le.mpr hgt)
    · split at heq
      · simp at heq
      · unfold execute_short_open_fill at heq
        simp at heq
  · unfold execute_short_open_fill at heq
    simp at heq

theorem dispatch_execute_no_zero_div (s : MockBroker) (o : Order) (ep : ℚ)
    (hc : 0 ≤ s.cash) : dispatch_execute s o ep ≠ Except.error ExecErr.zeroDiv := by
  unfold dispatch_execute
  split
  · split
    · exact execute_long_buy_no_zero_div s o.ticker o.quantity ep
    · exact execute_long_sell_no_err s o.ticker o.quantity ep ExecErr.zeroDiv
  · split
    · exact execute_short_open_no_zero_div s o.ticker o.quantity ep hc
    · exact execute_short_cover_no_err s o.ticker o.quantity ep ExecErr.zeroDiv

theorem execute_at_price_ok (s : MockBroker) (o : Order) (ep : ℚ)
    (hc : 0 ≤ s.cash) :
    submitIsOk (execute_at_price s o ep) = true ∧
    rejectedHasMessage (execute_at_price s o ep) = true := by
  unfold execute_at_price
  cases hd : dispatch_execute s o ep with
  | error e =>
      cases e with
      | zeroDiv => exact absurd hd (dispatch_execute_no_zero_div s o ep hc)
      | insufficientFunds msg => exact ⟨rfl, rfl⟩
  | ok fs =>
      refine ⟨rfl, ?_⟩
      simp only [rejectedHasMessage]
      split
      · rfl
      · split <;> rfl

theorem determine_exec_price_no_err (s : MockBroker) (o : Order) (cp : ℚ)
    (hcp0 : cp ≠ 0) (e : PyErr) : determine_exec_price s o cp ≠ Except.error e := by
  intro heq
  unfold determine_exec_price at heq
  split at heq
  · split at heq
    · simp only [] at heq
      split at heq <;> simp at heq
    · simp at heq
  · split at heq
    · simp at heq
    · split at heq
      · simp at heq
      · split at heq <;> simp at heq
  · simp at heq

/-- Claim C1 (amended): for every order, from every engine state with
nonnegative cash whose resolved current price is not zero,
`submit_order` returns normally — every execution-time failure (no
price available, slippage-guard exceeded, insufficient cash/margin even
after clamping, zero quantity filled) is surfaced as an OrderResult
with status REJECTED carrying a human-readable message.  At a zero
resolved price the max-slippage guard divides by the current price and
a `ZeroDivisionError` escapes to the caller (see the counterexample);
with negative cash the short-open clamp divisor can likewise be zero. -/
theorem submit_order_total (s : MockBroker) (o : Order)
    (hp : get_current_price s o.ticker ≠ some 0)
    (hc : 0 ≤ s.cash) :
    submitIsOk (submit_order s o) = true ∧
    rejectedHasMessage (submit_order s o) = true := by
  unfold submit_order
  cases hcp : get_current_price s o.ticker with
  | none => exact ⟨rfl, rfl⟩
  | some cp =>
      have hcp0 : cp ≠ 0 := fun h => hp (h ▸ hcp)
      simp only []
      cases hd : determine_exec_price s o cp with
      | error e => exact absurd hd (determine_exec_price_no_err s o cp hcp0 e)
      | ok v =>
          cases v with
          | inl rs =>
              rcases determine_exec_price_inl s o cp rs hd with hr | hr | hr <;>
                rw [hr] <;> exact ⟨rfl, rfl⟩
          | inr ep => exact execute_at_price_ok s o ep hc

/-- A broker with 5 cash and price 10 for "X", for the C1 witness. -/
def c1WitnessState : MockBroker := set_price (mkBroker 5 (1/2) 0 (1/200)) "X" 10

/-- A market buy of 1 "X" that will be rejected for insufficient funds,
for the C1 witness. -/
def c1WitnessOrder : Order := { ticker := "X", side := OrderSide.buy, quantity := 1 }

/-- Claim C1 witness: with price 10 and cash 5, the buy is rejected via
a returned REJECTED result with a message — no exception escapes. -/
theorem submit_order_total_witness :
    (get_current_price c1WitnessState c1WitnessOrder.ticker ≠ some 0 ∧
      0 ≤ c1WitnessState.cash) ∧
    (submitIsOk (submit_order c1WitnessState c1WitnessOrder) = true ∧
      rejectedHasMessage (submit_order c1WitnessState c1WitnessOrder) = true) :=
  ⟨⟨by with_unfolding_all decide, by with_unfolding_all decide⟩,
   submit_order_total c1WitnessState c1WitnessOrder
     (by with_unfolding_all decide) (by with_unfolding_all decide)⟩

/-- A broker whose cached price for "X" is 0.0, for the C1
counterexample. -/
def c1CexState : MockBroker := set_price (mkBroker 1000 (1/2) 0 (1/200)) "X" 0

/-- A market buy of 1 "X" at the cached zero price, for the C1
counterexample. -/
def c1CexOrder : Order := { ticker := "X", side := OrderSide.buy, quantity := 1 }

/-- Whether a `submit_order` run propagated a `ZeroDivisionError`. -/
def raisedZeroDivision (e : Except PyErr (OrderResult × MockBroker)) : Bool :=
  match e with
  | Except.error PyErr.zeroDivisionError => true
  | Except.ok _ => false

/-- Claim C1 counterexample: submitting a market order while the cached
price is 0.0 makes the max-slippage guard compute
`abs(exec_price - current_price) / current_price` with a zero divisor,
and `submit_order` propagates Python's `ZeroDivisionError` to the
caller instead of returning a REJECTED result. -/
theorem submit_order_raises_zero_division :
    raisedZeroDivision (submit_order c1CexState c1CexOrder) = true ∧
    submitIsOk (submit_order c1CexState c1CexOrder) = false :=
  ⟨by with_unfolding_all decide, by with_unfolding_all decide⟩

/-- A broker state holding cash, a position, a price and a PARTIAL
order besides a second order, for the C10 witness. -/
def c10State : MockBroker :=
  { mkBroker 1000 (1/2) 0 (1/200) with
    cash := 900
    margin_used := 10
    positions := [("X", { ticker := "X", quantity := 10, side := PositionSide.long,
                          average_cost := 10 })]
    prices := [("X", 12)]
    orders :=
      [(0, { order_id := 0, client_order_id := 7, ticker := "X", side := OrderSide.buy,
             quantity_requested := 20, quantity_filled := 10,
             status := OrderStatus.partFilled, average_price := some 10 }),
       (1, { order_id := 1, client_order_id := 8, ticker := "X", side := OrderSide.sell,
             quantity_requested := 3, quantity_filled := 0, status := OrderStatus.pending })] }

/-- Claim C10 witness: cancelling the PARTIAL order 0 of `c10State`
succeeds and the frame conditions hold there (order 1 untouched, ledger
fields untouched, order 0 only restatused). -/
theorem cancel_order_frame_witness :
    (cancel_order c10State 0).1 = true ∧
    ((cancel_order c10State 0).2.cash = c10State.cash ∧
      (cancel_order c10State 0).2.margin_used = c10State.margin_used ∧
      (cancel_order c10State 0).2.positions = c10State.positions ∧
      (cancel_order c10State 0).2.prices = c10State.prices ∧
      ((1 : ℕ) ≠ 0 →
        List.lookup 1 (cancel_order c10State 0).2.orders = List.lookup 1 c10State.orders) ∧
      List.lookup 0 (cancel_order c10State 0).2.orders =
        (List.lookup 0 c10State.orders).map (fun o => { o with status := OrderStatus.cancelled })) :=
  ⟨by with_unfolding_all decide,
   cancel_order_frame c10State 0 1 (by with_unfolding_all decide)⟩

end Mock
